import Mathlib

/-!
Shallow embedding of the PumpkinCE plugin runtime
(`src/pumpkin/src/plugin/mod.rs` and
`src/pumpkin/src/plugin/configuration/mod.rs`) together with theorems
checking the specification's claims about it.

Events are modelled by their runtime type identity (`get_name`) plus an
integer payload standing for the mutable fields a blocking handler may
alter.  Handlers are modelled by the data `fire` actually consults:
the registered type identity (`E::get_name_static()`), the priority tag,
the blocking flag, and an action on the payload; an `id` tags each
registration so invocation order is observable.  `fire` returns the
(possibly mutated) event together with the ordered list of
`(id, registered type)` pairs of the handlers actually invoked.
-/

/-- Priority tag attached to every handler registration.
Modelled from the spec: the `EventPriority` type lives in the `api`
module, which is not under `src/`; the spec only requires a totally
ordered tag, with `highest` ordered first. -/
inductive EventPriority where
  | highest
  | high
  | normal
  | low
  | lowest
deriving DecidableEq, Repr

/-- Rank of a priority, `highest` first; used only by the spec-side
ordering definition (the dispatch code never consults the rank). -/
def priorityRank : EventPriority → Nat
  | .highest => 0
  | .high => 1
  | .normal => 2
  | .low => 3
  | .lowest => 4

/-- An event instance: its runtime type identity (`get_name`, equal to
the static name of its Rust type) and an integer payload standing for
the mutable state blocking handlers may update. -/
structure SEvent where
  name : String
  data : Int

/-- A registered handler as stored in the type-erased `HandlerMap`:
the `TypedEventHandler` fields `fire` and the dyn-dispatch path consult
(`E::get_name_static()`, priority, blocking flag) plus an `id` making
invocations observable and an `action` standing for
`EventHandler::handle_blocking`'s mutation of the event. -/
structure HandlerEntry where
  forType : String
  priority : EventPriority
  blocking : Bool
  id : Nat
  action : Int → Int

/-- The `HandlerMap`: event type identity to ordered handler list. -/
def HandlerMap : Type := List (String × List HandlerEntry)

/-- Bucket lookup in the handler map (`HashMap::get`). -/
def lookupHandlers : HandlerMap → String → Option (List HandlerEntry)
  | [], _ => none
  | (k, hs) :: rest, n => if k = n then some hs else lookupHandlers rest n

/-- Models `handlers.entry(key).or_default().push(h)`: append `h` to the bucket
for `key`, creating the bucket when absent. -/
def insertHandler : HandlerMap → String → HandlerEntry → HandlerMap
  | [], key, h => [(key, [h])]
  | (k, hs) :: rest, key, h =>
    if k = key then (k, hs ++ [h]) :: rest
    else (k, hs) :: insertHandler rest key h

/-- Models `TypedEventHandler::handle_blocking_dyn`: invoke the handler on a
mutable view only when the registered type identity equals the event's
runtime name; a mismatch short-circuits, touching nothing. -/
def handleBlockingDyn (h : HandlerEntry) (ev : SEvent) :
    SEvent × List (Nat × String) :=
  if h.forType = ev.name then
    ({ ev with data := h.action ev.data }, [(h.id, h.forType)])
  else (ev, [])

/-- Models `TypedEventHandler::handle_dyn`: invoke the handler on a shared view
(no mutation) only when the registered type identity equals the event's
runtime name; returns the invocation record. -/
def handleDynIds (h : HandlerEntry) (ev : SEvent) : List (Nat × String) :=
  if h.forType = ev.name then [(h.id, h.forType)] else []

/-- The sequential loop over blocking handlers in
`PluginManager::fire`: each handler receives the event left by the
previous one. -/
def runBlocking : List HandlerEntry → SEvent → SEvent × List (Nat × String)
  | [], ev => (ev, [])
  | h :: hs, ev =>
    let r := handleBlockingDyn h ev
    let rest := runBlocking hs r.1
    (rest.1, r.2 ++ rest.2)

/-- Detailed loader failure.
Modelled from the spec: the `LoaderError` enum lives in the `loader`
module, not under `src/`; `initializationFailed` wraps a plugin-reported
`on_load` failure, as `LoaderError::InitializationFailed` does. -/
inductive LoaderError where
  | loadFailed
  | initializationFailed
  | unloadFailed
deriving DecidableEq, Repr

/-- Models `ManagerError` from `src/pumpkin/src/plugin/mod.rs`. -/
inductive ManagerError where
  | serverNotInitialized
  | pluginNotFound (what : String)
  | loaderError (e : LoaderError)
  | ioError
  | managerNotInitialized
deriving DecidableEq, Repr

/-- What a successful `loader.load` yields, as far as the manager
consults it: the metadata name and whether the plugin instance's
`on_load` hook succeeds. -/
structure PluginCandidate where
  name : String
  onLoadOk : Bool

/-- A plugin loader.
Modelled from the spec: the `PluginLoader` trait lives in the `loader`
module, not under `src/`; it is the capability record
`{can_load, load, unload, can_unload}`, with `unloadOk` standing for
whether `unload` on this loader's artifacts succeeds. -/
structure PluginLoader where
  accepts : String → Bool
  load : String → Except LoaderError PluginCandidate
  canUnload : Bool
  unloadOk : Bool

/-- A `LoadedPlugin` entry: metadata name, owning loader, active flag. -/
structure LoadedPlugin where
  name : String
  loader : PluginLoader
  isActive : Bool

/-- The `PluginManager` state: plugin collection, registered loaders,
whether the server / self references are set, the handler registry and
the pending (`unloaded_files`) set, modelled as a duplicate-free list. -/
structure PluginManager where
  plugins : List LoadedPlugin
  loaders : List PluginLoader
  serverSet : Bool
  selfRefSet : Bool
  handlers : HandlerMap
  unloadedFiles : List String

/-- Models `HashSet::insert` on the pending set. -/
def insertSet (l : List String) (p : String) : List String :=
  if p ∈ l then l else l ++ [p]

/-- Models `HashSet::remove` on the pending set. -/
def removeSet (l : List String) (p : String) : List String :=
  l.filter (fun q => q != p)

/-- The native dynamic-module loader installed by `Default`.
Modelled from the spec: `NativePluginLoader` lives in `loader/native.rs`,
not under `src/`; it accepts platform dynamic libraries (`.so` here) and
its actual artifact loading is outside this model. -/
def nativePluginLoader : PluginLoader :=
  { accepts := fun p => p.endsWith ".so"
    load := fun _ => .error .loadFailed
    canUnload := true
    unloadOk := true }

/-- Models `PluginManager::default` / `new`. -/
def PluginManager.new : PluginManager :=
  { plugins := []
    loaders := [nativePluginLoader]
    serverSet := false
    selfRefSet := false
    handlers := []
    unloadedFiles := [] }

/-- Models `PluginManager::set_server`. -/
def setServer (m : PluginManager) : PluginManager :=
  { m with serverSet := true }

/-- Models `PluginManager::set_self_ref`. -/
def setSelfRef (m : PluginManager) : PluginManager :=
  { m with selfRefSet := true }

/-- Models `PluginManager::register`: store a `TypedEventHandler` under
`E::get_name_static()`; its registered type identity is that same name. -/
def registerHandler (m : PluginManager) (typeName : String)
    (pr : EventPriority) (bl : Bool) (id : Nat) (act : Int → Int) :
    PluginManager :=
  let entry : HandlerEntry :=
    { forType := typeName, priority := pr, blocking := bl
      id := id, action := act }
  { m with handlers := insertHandler m.handlers typeName entry }

/-- Models `PluginManager::fire`: when the server reference is set, look up the
bucket for the event's type identity, partition it into blocking and
non-blocking handlers, run the blocking ones sequentially on the mutable
event, then the non-blocking ones on the resulting event; return the
event and the ordered invocation records. -/
def fire (m : PluginManager) (ev : SEvent) : SEvent × List (Nat × String) :=
  if m.serverSet then
    match lookupHandlers m.handlers ev.name with
    | some hs =>
      let parts := hs.partition (fun h => h.blocking)
      let rb := runBlocking parts.1 ev
      (rb.1, rb.2 ++ (parts.2.map (fun h => handleDynIds h rb.1)).flatten)
    | none => (ev, [])
  else (ev, [])

/-- First registered loader whose `can_load` accepts the path
(the probe loop of `try_load_plugin`). -/
def findAccepting : List PluginLoader → String → Option PluginLoader
  | [], _ => none
  | l :: ls, p => if l.accepts p then some l else findAccepting ls p

/-- Models `PluginManager::load_with_loader`: require the server reference,
run `loader.load`, require the self reference, run `on_load`; a hook
failure triggers best-effort rollback (external to this state) and an
`InitializationFailed` error. -/
def loadWithLoader (m : PluginManager) (l : PluginLoader) (path : String) :
    Except ManagerError LoadedPlugin :=
  if m.serverSet = false then .error .serverNotInitialized
  else
    match l.load path with
    | .error e => .error (.loaderError e)
    | .ok cand =>
      if m.selfRefSet = false then .error .serverNotInitialized
      else if cand.onLoadOk = false then
        .error (.loaderError .initializationFailed)
      else .ok { name := cand.name, loader := l, isActive := true }

/-- Models `PluginManager::try_load_plugin`: probe loaders in order; on a
successful load push the entry and drop the path from the pending set,
on a failed load log and return `Ok`; when no loader accepts, remember
the path and return `PluginNotFound`. -/
def tryLoadPlugin (m : PluginManager) (path : String) :
    PluginManager × Except ManagerError Unit :=
  match findAccepting m.loaders path with
  | some l =>
    match loadWithLoader m l path with
    | .ok p =>
      ({ m with plugins := m.plugins ++ [p]
                unloadedFiles := removeSet m.unloadedFiles path }, .ok ())
    | .error _ => (m, .ok ())
  | none =>
    ({ m with unloadedFiles := insertSet m.unloadedFiles path },
      .error (.pluginNotFound path))

/-- Models `PluginManager::retry_unloaded_files`: snapshot the pending set,
retry each path, and drop the paths whose retry returned `Ok`. -/
def retryUnloadedFiles (m : PluginManager) : PluginManager :=
  m.unloadedFiles.foldl
    (fun acc path =>
      let r := tryLoadPlugin acc path
      match r.2 with
      | .ok _ => { r.1 with unloadedFiles := removeSet r.1.unloadedFiles path }
      | .error _ => r.1)
    m

/-- Models `PluginManager::add_loader`: append the loader, then retry the
pending files. -/
def addLoader (m : PluginManager) (l : PluginLoader) : PluginManager :=
  retryUnloadedFiles { m with loaders := m.loaders ++ [l] }

/-- Models `position` + `Vec::remove` by metadata name: the first entry named
`n` together with the collection with that entry removed. -/
def removeFirstNamed : List LoadedPlugin → String →
    Option (LoadedPlugin × List LoadedPlugin)
  | [], _ => none
  | p :: ps, n =>
    if p.name = n then some (p, ps)
    else (removeFirstNamed ps n).map (fun r => (r.1, p :: r.2))

/-- Models `PluginManager::unload_plugin`: remove the entry by name first, then
require the server and self references, run the unload hook (result
discarded), and either release via the loader (`can_unload`) or push the
entry back deactivated. -/
def unloadPlugin (m : PluginManager) (n : String) :
    PluginManager × Except ManagerError Unit :=
  match removeFirstNamed m.plugins n with
  | none => (m, .error (.pluginNotFound n))
  | some (p, rest) =>
    if m.serverSet = false then
      ({ m with plugins := rest }, .error .serverNotInitialized)
    else if m.selfRefSet = false then
      ({ m with plugins := rest }, .error .serverNotInitialized)
    else if p.loader.canUnload then
      if p.loader.unloadOk then ({ m with plugins := rest }, .ok ())
      else ({ m with plugins := rest }, .error (.loaderError .unloadFailed))
    else
      ({ m with plugins := rest ++ [{ p with isActive := false }] }, .ok ())

/-- Models `PluginManager::is_plugin_active`. -/
def isPluginActive (m : PluginManager) (n : String) : Bool :=
  m.plugins.any (fun p => p.name == n && p.isActive)

/-- Models `PluginManager::is_plugin_loaded`. -/
def isPluginLoaded (m : PluginManager) (n : String) : Bool :=
  m.plugins.any (fun p => p.name == n)

/-- Names of the active plugin entries (`active_plugins`). -/
def activePlugins (m : PluginManager) : List String :=
  (m.plugins.filter (fun p => p.isActive)).map (fun p => p.name)

/-- Names of all plugin entries (`loaded_plugins`). -/
def loadedPlugins (m : PluginManager) : List String :=
  m.plugins.map (fun p => p.name)

/-- A `serde_yaml::Value` as the configuration store uses it. -/
inductive YamlValue where
  | null
  | bool (b : Bool)
  | int (n : Int)
  | str (s : String)
  | seq (xs : List YamlValue)
  | yamlMap (kvs : List (YamlValue × YamlValue))

/-- Models `serde_yaml::Value::as_str`. -/
def asStr : YamlValue → Option String
  | .str s => some s
  | _ => none

/-- Models `serde_yaml::Value::as_i64`. -/
def asI64 : YamlValue → Option Int
  | .int n => some n
  | _ => none

/-- Models `serde_yaml::Value::as_bool`. -/
def asBool : YamlValue → Option Bool
  | .bool b => some b
  | _ => none

/-- Models `serde_yaml::Value::as_sequence`. -/
def asSequence : YamlValue → Option (List YamlValue)
  | .seq xs => some xs
  | _ => none

/-- Models `serde_yaml::Value::as_mapping`. -/
def asMapping : YamlValue → Option (List (YamlValue × YamlValue))
  | .yamlMap kvs => some kvs
  | _ => none

/-- Models `Configuration` from
`src/pumpkin/src/plugin/configuration/mod.rs`: the raw data map. -/
structure Configuration where
  data : List (String × YamlValue)

/-- Models `HashMap::get` on the configuration data. -/
def lookupAssoc : List (String × YamlValue) → String → Option YamlValue
  | [], _ => none
  | (k, v) :: rest, key => if k = key then some v else lookupAssoc rest key

/-- Models `HashMap::insert` on the configuration data: replace or append. -/
def insertAssoc : List (String × YamlValue) → String → YamlValue →
    List (String × YamlValue)
  | [], key, v => [(key, v)]
  | (k, w) :: rest, key, v =>
    if k = key then (k, v) :: rest else (k, w) :: insertAssoc rest key v

/-- Character-level split on `.`, the behavior of Rust's
`str::split('.')`: never empty, keeps empty segments. -/
def splitCharsOnDot : List Char → List (List Char)
  | [] => [[]]
  | c :: cs =>
    if c = '.' then [] :: splitCharsOnDot cs
    else
      match splitCharsOnDot cs with
      | [] => [[c]]
      | p :: ps => (c :: p) :: ps

/-- Models `path.split('.').collect()` of the configuration code. -/
def pathParts (s : String) : List String :=
  (splitCharsOnDot s.data).map (fun cs => String.mk cs)

/-- Models `Configuration::get_value`: split the path on dots; a single-segment
path is looked up at top level, every other path yields `none`. -/
def getValue (c : Configuration) (path : String) : Option YamlValue :=
  let parts := pathParts path
  if parts.length = 1 then lookupAssoc c.data (parts.headD "") else none

/-- Models `Configuration::set`: split the path on dots and insert the value at
top level under the last segment (the split is never empty). -/
def configSet (c : Configuration) (path : String) (v : YamlValue) :
    Configuration :=
  let parts := pathParts path
  match parts.getLast? with
  | none => c
  | some last => { data := insertAssoc c.data last v }

/-- Models `Configuration::get_string`. -/
def getString (c : Configuration) (path : String) : Option String :=
  (getValue c path).bind asStr

/-- Models `Configuration::get_int`. -/
def getInt (c : Configuration) (path : String) : Option Int :=
  (getValue c path).bind asI64

/-- Models `Configuration::get_bool`. -/
def getBool (c : Configuration) (path : String) : Option Bool :=
  (getValue c path).bind asBool

/-- Models `Configuration::get_string_list`: the sequence's string items. -/
def getStringList (c : Configuration) (path : String) :
    Option (List String) :=
  (getValue c path).bind fun v =>
    (asSequence v).map fun xs => xs.filterMap asStr

/-- Models `Configuration::get_section`: the mapping's string-keyed items as a
fresh `Configuration`. -/
def getSection (c : Configuration) (path : String) : Option Configuration :=
  (getValue c path).bind fun v =>
    (asMapping v).map fun kvs =>
      { data := kvs.filterMap fun kv => (asStr kv.1).map fun k => (k, kv.2) }

/-!
Spec-side definitions.  `sortByPriority` follows the specification's
words ("priority then insertion order"): a stable sort on the priority
rank, to be compared with the order the dispatch code actually uses.
The `matching*` / `invokedPairs` definitions name the handler subsets
`fire` touches, for stating its characterization.
-/

/-- Stable insertion of a handler before the first strictly
lower-priority one (spec-side, for the ordering comparison). -/
def insertByPriority (h : HandlerEntry) :
    List HandlerEntry → List HandlerEntry
  | [] => [h]
  | g :: gs =>
    if priorityRank g.priority < priorityRank h.priority then
      g :: insertByPriority h gs
    else h :: g :: gs

/-- Stable sort by priority rank, preserving insertion order within a
priority tier (spec-side, for the ordering comparison). -/
def sortByPriority (hs : List HandlerEntry) : List HandlerEntry :=
  hs.foldr insertByPriority []

/-- The invocation order the spec claims for a bucket: blocking
partition before non-blocking, each ordered by priority then insertion. -/
def specFireOrder (hs : List HandlerEntry) : List Nat :=
  (sortByPriority (hs.filter (fun h => h.blocking))).map (fun h => h.id) ++
    (sortByPriority (hs.filter (fun h => !h.blocking))).map (fun h => h.id)

/-- Blocking handlers of a bucket whose registered type matches `n`,
in bucket (registration) order. -/
def matchingBlocking (hs : List HandlerEntry) (n : String) :
    List HandlerEntry :=
  hs.filter (fun h => h.blocking && h.forType == n)

/-- Non-blocking handlers of a bucket whose registered type matches `n`,
in bucket (registration) order. -/
def matchingNonBlocking (hs : List HandlerEntry) (n : String) :
    List HandlerEntry :=
  hs.filter (fun h => !h.blocking && h.forType == n)

/-- The invocation records `fire` produces on a bucket: blocking ones in
registration order, then non-blocking ones in registration order. -/
def invokedPairs (hs : List HandlerEntry) (n : String) :
    List (Nat × String) :=
  (matchingBlocking hs n).map (fun h => (h.id, h.forType)) ++
    (matchingNonBlocking hs n).map (fun h => (h.id, h.forType))

/-- Sequential left-to-right application of blocking mutations: each
action sees the payload left by the previous one. -/
def applyActs (fs : List (Int → Int)) (d : Int) : Int :=
  fs.foldl (fun d f => f d) d

/-- The handler bucket `fire` consults for type identity `n`. -/
def bucketOf (m : PluginManager) (n : String) : List HandlerEntry :=
  (lookupHandlers m.handlers n).getD []

lemma runBlocking_eq (hs : List HandlerEntry) (ev : SEvent) :
    runBlocking hs ev =
      ({ name := ev.name
         data := applyActs
           ((hs.filter (fun h => h.forType == ev.name)).map
             (fun h => h.action)) ev.data },
        (hs.filter (fun h => h.forType == ev.name)).map
          (fun h => (h.id, h.forType))) := by
  induction hs generalizing ev with
  | nil => simp [runBlocking, applyActs]
  | cons h hs ih =>
    by_cases hc : h.forType = ev.name
    · simp only [runBlocking, handleBlockingDyn, hc, if_pos rfl,
        List.filter_cons, beq_self_eq_true, if_pos, ih]
      simp [hc, applyActs]
    · have hb : (h.forType == ev.name) = false := by
        simp [hc]
      simp [runBlocking, handleBlockingDyn, hc, hb, ih, List.filter_cons]

lemma handleDynIds_flatten (l : List HandlerEntry) (ev' : SEvent)
    (n : String) (h : ev'.name = n) :
    (l.map (fun g => handleDynIds g ev')).flatten =
      (l.filter (fun g => g.forType == n)).map
        (fun g => (g.id, g.forType)) := by
  induction l with
  | nil => simp
  | cons g gs ih =>
    simp only [List.map_cons, List.flatten_cons, ih, List.filter_cons]
    by_cases hc : g.forType = n
    · simp [handleDynIds, h, hc]
    · simp [handleDynIds, h, hc]

lemma filter_filter_and (p q : HandlerEntry → Bool)
    (l : List HandlerEntry) :
    (l.filter p).filter q = l.filter (fun a => p a && q a) := by
  induction l with
  | nil => rfl
  | cons a l ih =>
    by_cases hp : p a
    · by_cases hq : q a <;> simp [List.filter_cons, hp, hq, ih]
    · simp [List.filter_cons, hp, ih]

lemma fire_eq (m : PluginManager) (ev : SEvent)
    (hs : m.serverSet = true) :
    fire m ev =
      ({ name := ev.name
         data := applyActs
           ((matchingBlocking (bucketOf m ev.name) ev.name).map
             (fun h => h.action)) ev.data },
        invokedPairs (bucketOf m ev.name) ev.name) := by
  cases hl : lookupHandlers m.handlers ev.name with
  | none =>
    simp [fire, hs, hl, bucketOf, matchingBlocking, matchingNonBlocking,
      invokedPairs, applyActs]
  | some bucket =>
    have hpart : bucket.partition (fun h => h.blocking) =
        (bucket.filter (fun h => h.blocking),
          bucket.filter (fun h => !h.blocking)) := by
      simp only [List.partition_eq_filter_filter]
      rfl
    have hrb := runBlocking_eq (bucket.filter (fun h => h.blocking)) ev
    simp only [fire, hs, if_pos rfl, hl, hpart, hrb]
    have hname :
        (({ name := ev.name
            data := applyActs
              (((bucket.filter (fun h => h.blocking)).filter
                (fun h => h.forType == ev.name)).map (fun h => h.action))
              ev.data } : SEvent)).name = ev.name := rfl
    rw [handleDynIds_flatten _ _ ev.name hname]
    rw [filter_filter_and, filter_filter_and]
    simp [bucketOf, hl, invokedPairs, matchingBlocking, matchingNonBlocking]

lemma invokedPairs_mem_snd (hs : List HandlerEntry) (n : String)
    (pr : Nat × String) (h : pr ∈ invokedPairs hs n) : pr.2 = n := by
  simp only [invokedPairs, matchingBlocking, matchingNonBlocking,
    List.mem_append, List.mem_map, List.mem_filter] at h
  rcases h with ⟨g, ⟨_, hg⟩, rfl⟩ | ⟨g, ⟨_, hg⟩, rfl⟩ <;>
    · rcases Bool.and_eq_true_iff.mp hg with ⟨_, hn⟩
      exact beq_iff_eq.mp hn

/-- Sample manager: server set, two blocking handlers registered for
type identity `T`, a low-priority one first (id 1), then a
highest-priority one (id 2). -/
def mgrOrd : PluginManager :=
  registerHandler
    (registerHandler (setServer PluginManager.new) "T" .low true 1
      (fun d => d + 1))
    "T" .highest true 2 (fun d => d * 2)

/-- C1 counterexample: with a low-priority handler registered before a
highest-priority one, `fire` invokes them in insertion order `[1, 2]`,
while the spec's priority-then-insertion order is `[2, 1]` — the
dispatch code never consults the priority tag. -/
theorem fire_priority_counterexample :
    (fire mgrOrd { name := "T", data := 0 }).2.map Prod.fst = [1, 2] ∧
      specFireOrder (bucketOf mgrOrd "T") = [2, 1] ∧
      ([1, 2] : List Nat) ≠ [2, 1] :=
  ⟨rfl, rfl, by decide⟩

/-- C1 (amended): when the server reference is set, `fire` invokes the
handlers of each partition (blocking first, then non-blocking) in pure
insertion (registration) order — the stored priority tag plays no role —
and this order is a function of the registry and the type identity
alone, hence identical across repeated publishes of the same type. -/
theorem fire_insertion_order_per_partition (m : PluginManager)
    (ev : SEvent) (h : m.serverSet = true) :
    (fire m ev).2 = invokedPairs (bucketOf m ev.name) ev.name ∧
      ∀ d : Int, (fire m ev).2 =
        (fire m { name := ev.name, data := d }).2 := by
  refine ⟨by rw [fire_eq m ev h], fun d => ?_⟩
  rw [fire_eq m ev h, fire_eq m { name := ev.name, data := d } h]

/-- Witness for the amended C1 theorem at a concrete registry. -/
theorem fire_insertion_order_per_partition_witness :
    mgrOrd.serverSet = true ∧
      (fire mgrOrd { name := "T", data := 5 }).2 =
        invokedPairs (bucketOf mgrOrd "T") "T" ∧
      (fire mgrOrd { name := "T", data := 5 }).2 =
        (fire mgrOrd { name := "T", data := 9 }).2 :=
  ⟨rfl,
    (fire_insertion_order_per_partition mgrOrd
      { name := "T", data := 5 } rfl).1,
    (fire_insertion_order_per_partition mgrOrd
      { name := "T", data := 5 } rfl).2 9⟩

/-- C2: a handler registered under type identity `A` is never invoked
when an event of a distinct type identity `B` is published, and the
dynamic dispatch entry points short-circuit on the identity mismatch,
leaving the event untouched and invoking nothing. -/
theorem handler_type_isolation (A B : String) (m : PluginManager)
    (ev : SEvent) (i : Nat) (hAB : A ≠ B) (hev : ev.name = B) :
    (i, A) ∉ (fire m ev).2 ∧
      ∀ h : HandlerEntry, h.forType = A →
        handleBlockingDyn h ev = (ev, []) ∧ handleDynIds h ev = [] := by
  constructor
  · intro hmem
    cases hsrv : m.serverSet with
    | false => simp [fire, hsrv] at hmem
    | true =>
      rw [fire_eq m ev hsrv] at hmem
      have := invokedPairs_mem_snd _ _ _ hmem
      exact hAB (this.trans hev)
  · intro h hA
    have hne : ¬h.forType = ev.name := by
      rw [hA, hev]; exact hAB
    exact ⟨by simp [handleBlockingDyn, hne], by simp [handleDynIds, hne]⟩

/-- A concrete handler entry registered for type identity `T`. -/
def entryT : HandlerEntry :=
  { forType := "T", priority := .normal, blocking := true
    id := 1, action := fun d => d }

/-- Witness for C2 at concrete distinct type identities. -/
theorem handler_type_isolation_witness :
    ("T" : String) ≠ "U" ∧ entryT.forType = "T" ∧
      (1, "T") ∉ (fire mgrOrd { name := "U", data := 0 }).2 ∧
      handleBlockingDyn entryT { name := "U", data := 0 } =
        ({ name := "U", data := 0 }, []) ∧
      handleDynIds entryT { name := "U", data := 0 } = [] :=
  ⟨by decide, rfl,
    (handler_type_isolation "T" "U" mgrOrd
      { name := "U", data := 0 } 1 (by decide) rfl).1,
    ((handler_type_isolation "T" "U" mgrOrd
      { name := "U", data := 0 } 1 (by decide) rfl).2 entryT rfl).1,
    ((handler_type_isolation "T" "U" mgrOrd
      { name := "U", data := 0 } 1 (by decide) rfl).2 entryT rfl).2⟩

/-- C4: with the server reference set, `fire` keeps the event's type,
applies the matching blocking handlers' mutations sequentially left to
right (each observing its predecessors' mutations) to produce the
returned event, drains all blocking invocations before any non-blocking
one, and is the identity returning no invocation when no bucket is
registered for the type. -/
theorem fire_blocking_then_nonblocking (m : PluginManager) (ev : SEvent)
    (h : m.serverSet = true) :
    ((fire m ev).1.name = ev.name ∧
      (fire m ev).1.data = applyActs
        ((matchingBlocking (bucketOf m ev.name) ev.name).map
          (fun g => g.action)) ev.data) ∧
      (fire m ev).2 =
        (matchingBlocking (bucketOf m ev.name) ev.name).map
            (fun g => (g.id, g.forType)) ++
          (matchingNonBlocking (bucketOf m ev.name) ev.name).map
            (fun g => (g.id, g.forType)) ∧
      (lookupHandlers m.handlers ev.name = none → fire m ev = (ev, [])) := by
  refine ⟨⟨?_, ?_⟩, ?_, ?_⟩
  · rw [fire_eq m ev h]
  · rw [fire_eq m ev h]
  · rw [fire_eq m ev h]; rfl
  · intro hnone; simp [fire, h, hnone]

/-- Witness for C4 at a concrete registry and event. -/
theorem fire_blocking_then_nonblocking_witness :
    mgrOrd.serverSet = true ∧
      (((fire mgrOrd { name := "T", data := 3 }).1.name = "T" ∧
        (fire mgrOrd { name := "T", data := 3 }).1.data = applyActs
          ((matchingBlocking (bucketOf mgrOrd "T") "T").map
            (fun g => g.action)) 3) ∧
        (fire mgrOrd { name := "T", data := 3 }).2 =
          (matchingBlocking (bucketOf mgrOrd "T") "T").map
              (fun g => (g.id, g.forType)) ++
            (matchingNonBlocking (bucketOf mgrOrd "T") "T").map
              (fun g => (g.id, g.forType)) ∧
        (lookupHandlers mgrOrd.handlers "T" = none →
          fire mgrOrd { name := "T", data := 3 } =
            ({ name := "T", data := 3 }, []))) :=
  ⟨rfl, fire_blocking_then_nonblocking mgrOrd { name := "T", data := 3 } rfl⟩

/-- Sample manager: a blocking handler registered for `T`, but the
server reference never set. -/
def mgrNoServer : PluginManager :=
  registerHandler PluginManager.new "T" .normal true 1 (fun d => d + 1)

/-- C10: when the server reference is unset, `fire` invokes no handler
at all — registered buckets included — and returns the event unchanged,
with no error reported. -/
theorem fire_without_server_is_noop (m : PluginManager) (ev : SEvent)
    (h : m.serverSet = false) : fire m ev = (ev, []) := by
  simp [fire, h]

/-- Witness for C10: a registry with a handler for the fired type, yet
nothing runs. -/
theorem fire_without_server_is_noop_witness :
    mgrNoServer.serverSet = false ∧
      fire mgrNoServer { name := "T", data := 0 } =
        ({ name := "T", data := 0 }, []) :=
  ⟨rfl, fire_without_server_is_noop mgrNoServer
    { name := "T", data := 0 } rfl⟩

lemma removeFirstNamed_name (l : List LoadedPlugin) (n : String)
    (p : LoadedPlugin) (rest : List LoadedPlugin)
    (h : removeFirstNamed l n = some (p, rest)) : p.name = n := by
  induction l generalizing rest with
  | nil => simp [removeFirstNamed] at h
  | cons q qs ih =>
    by_cases hq : q.name = n
    · simp [removeFirstNamed, hq] at h
      rw [← h.1, hq]
    · simp only [removeFirstNamed, hq, if_false, Option.map_eq_some'] at h
      rcases h with ⟨r, hr, heq⟩
      have hp : r.1 = p := congrArg Prod.fst heq
      exact ih r.2 (by rw [hr, ← hp])

/-- Number of active entries bearing a given name. -/
def countActiveNamed (m : PluginManager) (n : String) : Nat :=
  (m.plugins.filter (fun q => q.name == n && q.isActive)).length

/-- A loader that accepts the path `p1` and loads a plugin named
`alpha` whose load hook succeeds. -/
def alphaLoader : PluginLoader :=
  { accepts := fun p => p == "p1"
    load := fun _ => .ok { name := "alpha", onLoadOk := true }
    canUnload := true
    unloadOk := true }

/-- Fresh manager with server and self references set and `alphaLoader`
added. -/
def mgrDup : PluginManager :=
  addLoader (setSelfRef (setServer PluginManager.new)) alphaLoader

/-- C3 counterexample: `try_load_plugin` performs no duplicate-name
check, so loading the path `p1` twice yields two simultaneously active
entries named `alpha`, already after the first load made `alpha`
active. -/
theorem tryLoadPlugin_duplicate_active_counterexample :
    isPluginActive (tryLoadPlugin mgrDup "p1").1 "alpha" = true ∧
      (tryLoadPlugin (tryLoadPlugin mgrDup "p1").1 "p1").1.plugins.map
        (fun q => (q.name, q.isActive)) =
          [("alpha", true), ("alpha", true)] ∧
      countActiveNamed (tryLoadPlugin (tryLoadPlugin mgrDup "p1").1 "p1").1
        "alpha" = 2 :=
  ⟨rfl, rfl, rfl⟩

/-- C3 (amended): `try_load_plugin` appends at most one entry and never
checks for an existing active entry of the same name; the at-most-one-
active invariant therefore holds only for names no current entry bears —
for such a fresh name, at most one active entry exists afterwards. -/
theorem tryLoadPlugin_fresh_name_unique_active (m : PluginManager)
    (path n : String) (hfresh : ∀ q ∈ m.plugins, q.name ≠ n) :
    countActiveNamed (tryLoadPlugin m path).1 n ≤ 1 := by
  have hnil : m.plugins.filter (fun q => q.name == n && q.isActive) = [] := by
    rw [List.filter_eq_nil_iff]
    intro q hq
    simp [hfresh q hq]
  cases hfa : findAccepting m.loaders path with
  | none => simp [tryLoadPlugin, hfa, countActiveNamed, hnil]
  | some l =>
    cases hlw : loadWithLoader m l path with
    | error e => simp [tryLoadPlugin, hfa, hlw, countActiveNamed, hnil]
    | ok p =>
      simp only [tryLoadPlugin, hfa, hlw, countActiveNamed,
        List.filter_append, hnil, List.nil_append]
      exact le_trans (List.length_filter_le _ _) (by simp)

/-- Witness for the amended C3 theorem: loading on a fresh manager
leaves at most one active `alpha` entry. -/
theorem tryLoadPlugin_fresh_name_unique_active_witness :
    mgrDup.plugins = [] ∧
      countActiveNamed (tryLoadPlugin mgrDup "p1").1 "alpha" ≤ 1 :=
  ⟨rfl, tryLoadPlugin_fresh_name_unique_active mgrDup "p1" "alpha"
    (fun q hq =>
      absurd (show q ∈ ([] : List LoadedPlugin) from hq)
        (List.not_mem_nil q))⟩

/-- Manager obtained by probing `p2` when only the native loader is
registered: the path is accepted by no loader and becomes pending. -/
def mgrPend : PluginManager :=
  (tryLoadPlugin (setSelfRef (setServer PluginManager.new)) "p2").1

/-- A loader that accepts the pending path `p2` but whose `load`
fails. -/
def badLoader : PluginLoader :=
  { accepts := fun p => p == "p2"
    load := fun _ => .error .loadFailed
    canUnload := true
    unloadOk := true }

/-- A loader that accepts `p2` and loads a plugin named `beta`
successfully. -/
def betaLoader : PluginLoader :=
  { accepts := fun p => p == "p2"
    load := fun _ => .ok { name := "beta", onLoadOk := true }
    canUnload := false
    unloadOk := true }

/-- C5 counterexample: `add_loader` with a loader that accepts the
pending path but whose `load` fails removes the path from the pending
set while appending no `LoadedPlugin` entry at all — not exactly one as
claimed (because `try_load_plugin` returns `Ok(())` on a failed load, so
the retry loop drops the path). -/
theorem addLoader_failing_load_counterexample :
    mgrPend.plugins = [] ∧
      mgrPend.unloadedFiles = ["p2"] ∧
      badLoader.accepts "p2" = true ∧
      (addLoader mgrPend badLoader).plugins = [] ∧
      (addLoader mgrPend badLoader).unloadedFiles = [] :=
  ⟨rfl, rfl, rfl, rfl, rfl⟩

/-- C5 (amended): a path accepted by no registered loader leaves the
plugin collection unchanged and joins the pending set; a subsequent
`add_loader` with a loader that accepts that (sole pending) path and
successfully loads it (server and self references set, `load` and
`on_load` succeed) removes the path from the pending set and appends
exactly one `LoadedPlugin` entry.  When the accepted load fails instead,
the path is still removed from the pending set and nothing is appended
(the counterexample). -/
theorem pending_path_retry (m : PluginManager) (path : String)
    (l : PluginLoader) (cand : PluginCandidate) :
    (findAccepting m.loaders path = none →
      (tryLoadPlugin m path).1.plugins = m.plugins ∧
        path ∈ (tryLoadPlugin m path).1.unloadedFiles) ∧
      (m.unloadedFiles = [path] → m.serverSet = true →
        m.selfRefSet = true →
        findAccepting (m.loaders ++ [l]) path = some l →
        l.load path = .ok cand → cand.onLoadOk = true →
        (addLoader m l).plugins =
            m.plugins ++ [{ name := cand.name, loader := l
                            isActive := true }] ∧
          (addLoader m l).unloadedFiles = []) := by
  constructor
  · intro hfa
    refine ⟨by simp [tryLoadPlugin, hfa], ?_⟩
    simp only [tryLoadPlugin, hfa, insertSet]
    by_cases hmem : path ∈ m.unloadedFiles <;> simp [hmem]
  · intro hpend hsrv hself hfa hload honl
    simp only [addLoader, retryUnloadedFiles, hpend, List.foldl_cons,
      List.foldl_nil, tryLoadPlugin, loadWithLoader, hfa, hsrv, hself,
      hload, honl]
    simp [removeSet]

/-- Witness for C5: `p2` is accepted by no loader and becomes pending;
adding `betaLoader` then loads it, emptying the pending set and
appending exactly one entry. -/
theorem pending_path_retry_witness :
    findAccepting (setSelfRef (setServer PluginManager.new)).loaders
        "p2" = none ∧
      (tryLoadPlugin (setSelfRef (setServer PluginManager.new))
          "p2").1.plugins =
        (setSelfRef (setServer PluginManager.new)).plugins ∧
      "p2" ∈ (tryLoadPlugin (setSelfRef (setServer PluginManager.new))
          "p2").1.unloadedFiles ∧
      mgrPend.unloadedFiles = ["p2"] ∧
      (addLoader mgrPend betaLoader).plugins =
        mgrPend.plugins ++
          [{ name := "beta", loader := betaLoader, isActive := true }] ∧
      (addLoader mgrPend betaLoader).unloadedFiles = [] :=
  ⟨rfl,
    ((pending_path_retry (setSelfRef (setServer PluginManager.new)) "p2"
      betaLoader { name := "beta", onLoadOk := true }).1 rfl).1,
    ((pending_path_retry (setSelfRef (setServer PluginManager.new)) "p2"
      betaLoader { name := "beta", onLoadOk := true }).1 rfl).2,
    rfl,
    ((pending_path_retry mgrPend "p2" betaLoader
      { name := "beta", onLoadOk := true }).2
        rfl rfl rfl rfl rfl rfl).1,
    ((pending_path_retry mgrPend "p2" betaLoader
      { name := "beta", onLoadOk := true }).2
        rfl rfl rfl rfl rfl rfl).2⟩

/-- C6: with the name borne by exactly one entry and both references
set, a successful `unload_plugin` leaves the plugin absent from both
queries when the owning loader can unload, and absent from the active
query but still present in the loaded query (deactivated entry
retained) when it cannot. -/
theorem unloadPlugin_loaded_active_queries (m : PluginManager)
    (n : String) (p : LoadedPlugin) (rest : List LoadedPlugin)
    (hrm : removeFirstNamed m.plugins n = some (p, rest))
    (hrest : ∀ q ∈ rest, q.name ≠ n)
    (hsrv : m.serverSet = true) (hself : m.selfRefSet = true) :
    (p.loader.canUnload = true → p.loader.unloadOk = true →
      (unloadPlugin m n).2 = .ok () ∧
        isPluginLoaded (unloadPlugin m n).1 n = false ∧
        isPluginActive (unloadPlugin m n).1 n = false) ∧
      (p.loader.canUnload = false →
        (unloadPlugin m n).2 = .ok () ∧
          isPluginLoaded (unloadPlugin m n).1 n = true ∧
          isPluginActive (unloadPlugin m n).1 n = false) := by
  constructor
  · intro hcu huo
    have hres : unloadPlugin m n = ({ m with plugins := rest }, .ok ()) := by
      simp [unloadPlugin, hrm, hsrv, hself, hcu, huo]
    rw [hres]
    refine ⟨rfl, ?_, ?_⟩
    · simp only [isPluginLoaded, List.any_eq_false]
      intro q hq
      simp [hrest q hq]
    · simp only [isPluginActive, List.any_eq_false]
      intro q hq
      simp [hrest q hq]
  · intro hcu
    have hres : unloadPlugin m n =
        ({ m with plugins := rest ++ [{ p with isActive := false }] },
          .ok ()) := by
      simp [unloadPlugin, hrm, hsrv, hself, hcu]
    rw [hres]
    refine ⟨rfl, ?_, ?_⟩
    · simp [isPluginLoaded, List.any_append,
        removeFirstNamed_name _ _ _ _ hrm]
    · simp only [isPluginActive, List.any_eq_false, List.mem_append]
      intro q hq
      rcases hq with hq | hq
      · simp [hrest q hq]
      · simp only [List.mem_singleton] at hq
        subst hq
        simp

/-- A loader whose artifacts can be released (`can_unload` true,
`unload` succeeds). -/
def releasableLoader : PluginLoader :=
  { accepts := fun _ => true
    load := fun _ => .ok { name := "alpha", onLoadOk := true }
    canUnload := true
    unloadOk := true }

/-- An entry named `alpha` owned by the releasable loader. -/
def pluginRel : LoadedPlugin :=
  { name := "alpha", loader := releasableLoader, isActive := true }

/-- Manager holding only `pluginRel`, both references set. -/
def mgrRel : PluginManager :=
  { plugins := [pluginRel], loaders := [releasableLoader]
    serverSet := true, selfRefSet := true
    handlers := [], unloadedFiles := [] }

/-- A loader whose artifacts cannot be released (`can_unload` false). -/
def residentLoader : PluginLoader :=
  { accepts := fun _ => true
    load := fun _ => .ok { name := "alpha", onLoadOk := true }
    canUnload := false
    unloadOk := true }

/-- An entry named `alpha` owned by the resident-only loader. -/
def pluginRes : LoadedPlugin :=
  { name := "alpha", loader := residentLoader, isActive := true }

/-- Manager holding only `pluginRes`, both references set. -/
def mgrRes : PluginManager :=
  { plugins := [pluginRes], loaders := [residentLoader]
    serverSet := true, selfRefSet := true
    handlers := [], unloadedFiles := [] }

/-- Witness for C6 in both loader-capability cases. -/
theorem unloadPlugin_loaded_active_queries_witness :
    removeFirstNamed mgrRel.plugins "alpha" = some (pluginRel, []) ∧
      pluginRel.loader.canUnload = true ∧
      pluginRel.loader.unloadOk = true ∧
      ((unloadPlugin mgrRel "alpha").2 = .ok () ∧
        isPluginLoaded (unloadPlugin mgrRel "alpha").1 "alpha" = false ∧
        isPluginActive (unloadPlugin mgrRel "alpha").1 "alpha" = false) ∧
      pluginRes.loader.canUnload = false ∧
      ((unloadPlugin mgrRes "alpha").2 = .ok () ∧
        isPluginLoaded (unloadPlugin mgrRes "alpha").1 "alpha" = true ∧
        isPluginActive (unloadPlugin mgrRes "alpha").1 "alpha" = false) :=
  ⟨rfl, rfl, rfl,
    (unloadPlugin_loaded_active_queries mgrRel "alpha" pluginRel []
      rfl (by simp) rfl rfl).1 rfl rfl,
    rfl,
    (unloadPlugin_loaded_active_queries mgrRes "alpha" pluginRes []
      rfl (by simp) rfl rfl).2 rfl⟩

/-- C9: `unload_plugin` removes the entry before validating the server
and self references and before the loader release, so every error path
other than the unknown-name one leaves the entry already removed; only
`PluginNotFound` leaves the collection unchanged. -/
theorem unloadPlugin_error_paths (m : PluginManager) (n : String) :
    (removeFirstNamed m.plugins n = none →
      unloadPlugin m n = (m, .error (.pluginNotFound n))) ∧
      (∀ p rest, removeFirstNamed m.plugins n = some (p, rest) →
        (m.serverSet = false →
          unloadPlugin m n =
            ({ m with plugins := rest }, .error .serverNotInitialized)) ∧
          (m.serverSet = true → m.selfRefSet = false →
            unloadPlugin m n =
              ({ m with plugins := rest }, .error .serverNotInitialized)) ∧
          (m.serverSet = true → m.selfRefSet = true →
            p.loader.canUnload = true → p.loader.unloadOk = false →
            unloadPlugin m n =
              ({ m with plugins := rest },
                .error (.loaderError .unloadFailed)))) := by
  constructor
  · intro h
    simp [unloadPlugin, h]
  · intro p rest hrm
    refine ⟨?_, ?_, ?_⟩
    · intro hs
      simp [unloadPlugin, hrm, hs]
    · intro hs hf
      simp [unloadPlugin, hrm, hs, hf]
    · intro hs hf hcu huo
      simp [unloadPlugin, hrm, hs, hf, hcu, huo]

/-- A loader that loads fine but whose `unload` fails. -/
def stuckLoader : PluginLoader :=
  { accepts := fun _ => true
    load := fun _ => .ok { name := "alpha", onLoadOk := true }
    canUnload := true
    unloadOk := false }

/-- An entry named `alpha` owned by the stuck loader. -/
def pluginStuck : LoadedPlugin :=
  { name := "alpha", loader := stuckLoader, isActive := true }

/-- Manager holding only `pluginStuck`, both references set. -/
def mgrStuck : PluginManager :=
  { plugins := [pluginStuck], loaders := [stuckLoader]
    serverSet := true, selfRefSet := true
    handlers := [], unloadedFiles := [] }

/-- Witness for C9: a failing loader release reports an error with the
entry already removed, and an unknown name leaves the state unchanged. -/
theorem unloadPlugin_error_paths_witness :
    removeFirstNamed mgrStuck.plugins "alpha" = some (pluginStuck, []) ∧
      unloadPlugin mgrStuck "alpha" =
        ({ mgrStuck with plugins := [] },
          .error (.loaderError .unloadFailed)) ∧
      removeFirstNamed mgrStuck.plugins "zeta" = none ∧
      unloadPlugin mgrStuck "zeta" =
        (mgrStuck, .error (.pluginNotFound "zeta")) :=
  ⟨rfl,
    ((unloadPlugin_error_paths mgrStuck "alpha").2 pluginStuck []
      rfl).2.2 rfl rfl rfl rfl,
    rfl,
    (unloadPlugin_error_paths mgrStuck "zeta").1 rfl⟩

/-- A loader accepting everything, loading a plugin named `gamma`. -/
def universalLoader : PluginLoader :=
  { accepts := fun _ => true
    load := fun _ => .ok { name := "gamma", onLoadOk := true }
    canUnload := true
    unloadOk := true }

/-- Manager with the server reference set but the self reference never
set, holding one entry named `alpha`. -/
def mgrNoSelf : PluginManager :=
  { plugins := [{ name := "alpha", loader := universalLoader
                  isActive := true }]
    loaders := [universalLoader]
    serverSet := true, selfRefSet := false
    handlers := [], unloadedFiles := [] }

/-- C7 (code bug): with the self-reference unset, both
`load_with_loader` and `unload_plugin` fail with the
`ServerNotInitialized` variant, not the `ManagerNotInitialized` variant
the error taxonomy reserves for exactly this condition (that variant is
constructed nowhere in the manager). -/
theorem selfref_unset_wrong_error_variant :
    loadWithLoader mgrNoSelf universalLoader "p" =
        .error .serverNotInitialized ∧
      (unloadPlugin mgrNoSelf "alpha").2 = .error .serverNotInitialized ∧
      ManagerError.serverNotInitialized ≠
        ManagerError.managerNotInitialized :=
  ⟨rfl, rfl, by decide⟩

lemma lookup_insertAssoc (l : List (String × YamlValue)) (k : String)
    (v : YamlValue) : lookupAssoc (insertAssoc l k v) k = some v := by
  induction l with
  | nil => simp [insertAssoc, lookupAssoc]
  | cons kv rest ih =>
    by_cases hk : kv.1 = k
    · simp [insertAssoc, lookupAssoc, hk]
    · simp [insertAssoc, lookupAssoc, hk, ih]

lemma filterMap_asStr_map (xs : List String) :
    (xs.map YamlValue.str).filterMap asStr = xs := by
  induction xs with
  | nil => rfl
  | cons x xs ih => simp only [List.map_cons, List.filterMap_cons, asStr, ih]

/-- C8: on a single-segment key, `set` followed by the matching typed
getter returns the stored value (for string, integer, boolean and
string-list values), while every multi-segment dotted path makes every
typed getter return `none`, whatever the store holds. -/
theorem configuration_set_get_roundtrip (c : Configuration) (key : String)
    (hk : pathParts key = [key]) :
    (∀ s, getString (configSet c key (.str s)) key = some s) ∧
      (∀ n : Int, getInt (configSet c key (.int n)) key = some n) ∧
      (∀ b, getBool (configSet c key (.bool b)) key = some b) ∧
      (∀ xs : List String,
        getStringList (configSet c key (.seq (xs.map .str))) key =
          some xs) ∧
      (∀ (path : String) (d : Configuration),
        (pathParts path).length ≠ 1 →
          getString d path = none ∧ getInt d path = none ∧
            getBool d path = none ∧ getStringList d path = none ∧
            getSection d path = none) := by
  have hget : ∀ v, getValue (configSet c key v) key = some v := fun v => by
    simp [configSet, getValue, hk, lookup_insertAssoc]
  refine ⟨fun s => ?_, fun n => ?_, fun b => ?_, fun xs => ?_,
    fun path d hp => ?_⟩
  · simp [getString, hget, asStr]
  · simp [getInt, hget, asI64]
  · simp [getBool, hget, asBool]
  · simp only [getStringList, hget]
    exact congrArg some (filterMap_asStr_map xs)
  · have hv : getValue d path = none := by simp [getValue, hp]
    simp [getString, getInt, getBool, getStringList, getSection, hv]

/-- Witness for C8 at the key `alpha` and the dotted path `a.b`. -/
theorem configuration_set_get_roundtrip_witness :
    pathParts "alpha" = ["alpha"] ∧
      getString (configSet { data := [] } "alpha" (.str "v")) "alpha" =
        some "v" ∧
      getInt (configSet { data := [] } "alpha" (.int 7)) "alpha" =
        some 7 ∧
      getBool (configSet { data := [] } "alpha" (.bool true)) "alpha" =
        some true ∧
      getStringList
          (configSet { data := [] } "alpha"
            (.seq (["x", "y"].map .str))) "alpha" = some ["x", "y"] ∧
      (pathParts "a.b").length ≠ 1 ∧
      getString { data := [("a", .str "v")] } "a.b" = none ∧
      getSection { data := [("a", .str "v")] } "a.b" = none :=
  ⟨by decide,
    (configuration_set_get_roundtrip { data := [] } "alpha"
      (by decide)).1 "v",
    (configuration_set_get_roundtrip { data := [] } "alpha"
      (by decide)).2.1 7,
    (configuration_set_get_roundtrip { data := [] } "alpha"
      (by decide)).2.2.1 true,
    (configuration_set_get_roundtrip { data := [] } "alpha"
      (by decide)).2.2.2.1 ["x", "y"],
    by decide,
    ((configuration_set_get_roundtrip { data := [] } "alpha"
      (by decide)).2.2.2.2 "a.b" { data := [("a", .str "v")] }
        (by decide)).1,
    ((configuration_set_get_roundtrip { data := [] } "alpha"
      (by decide)).2.2.2.2 "a.b" { data := [("a", .str "v")] }
        (by decide)).2.2.2.2⟩
